import Mathlib

/-!
Verification development for the Apex Legends exporter (src/server/main.py).

The Python program polls an upstream game-statistics API and republishes the
retrieved JSON fields as metric instruments.  This file shallowly embeds the
data-bearing parts of the program: JSON values, dictionary/list access with
Python's error behaviour, the two collectors' `populate_data` methods, the
query-parameter selection, the startup environment validation, and the
`ApexCollector.collect` projection into the instrument registry.

Machine floats only occur as pass-through values (gauge `set` coerces with
`float(...)`); they are modelled as rationals.  Python `float(str)` parsing is
modelled for plain decimal literals (optional sign, digits, optional decimal
point), which covers the shapes the upstream sends; exotic forms (exponents,
inf/nan, surrounding whitespace) are out of scope of every claim.
-/

/-- A JSON value as Python's `json` module produces it (numbers as rationals). -/
inductive Json where
  | null
  | bool (b : Bool)
  | num (q : Rat)
  | str (s : String)
  | arr (elems : List Json)
  | obj (fields : List (String × Json))

/-- The Python exceptions the embedded fragment can raise.  The source defines
no exception classes of its own (in particular no `UpstreamError` and no
`ConfigurationError`); failures surface as these built-in / library errors. -/
inductive PyError where
  | requestException
  | jsonDecodeError
  | keyError (key : String)
  | indexError
  | typeError
  | valueError
  | attributeError
deriving DecidableEq

/-- First-match association-list lookup; Python dicts have unique keys, so this
is exactly `dict[k]`'s lookup on our representation. -/
def alistLookup (fields : List (String × Json)) (k : String) : Option Json :=
  match fields with
  | [] => none
  | (k', v) :: rest => if k' = k then some v else alistLookup rest k

/-- Python subscription `j[k]` with a string key: `KeyError` on a dict missing
the key, `TypeError` on any non-dict value. -/
def Json.getItem (j : Json) (k : String) : Except PyError Json :=
  match j with
  | .obj fields =>
    match alistLookup fields k with
    | some v => .ok v
    | none => .error (.keyError k)
  | _ => .error .typeError

/-- Python subscription `j[i]` with an integer index: positional on lists and
strings (`IndexError` when out of range), `KeyError` on dicts, `TypeError`
otherwise. -/
def Json.index (j : Json) (i : Nat) : Except PyError Json :=
  match j with
  | .arr elems =>
    match elems.get? i with
    | some v => .ok v
    | none => .error .indexError
  | .str s =>
    match s.toList.get? i with
    | some c => .ok (.str c.toString)
    | none => .error .indexError
  | .obj _ => .error (.keyError (toString i))
  | _ => .error .typeError

/-- Python truthiness of a JSON value (`bool(x)` / the test in `if x:`). -/
def pyTruthy : Json → Bool
  | .null => false
  | .bool b => b
  | .num q => decide (q ≠ 0)
  | .str s => decide (s ≠ "")
  | .arr elems => !elems.isEmpty
  | .obj fields => !fields.isEmpty

/-- Python's short-circuit `a or b` on values. -/
def pyOr (a b : Json) : Json :=
  if pyTruthy a then a else b

/-- Python `j == s` for a string literal `s`: equal only when `j` is that
string; comparisons across types are `False`, never an error. -/
def pyEqStr (j : Json) (s : String) : Bool :=
  match j with
  | .str t => decide (t = s)
  | _ => false

/-- Python `j == 0` (note `False == 0` and `True == 1` hold in Python). -/
def pyEqZero (j : Json) : Bool :=
  match j with
  | .num q => decide (q = 0)
  | .bool b => !b
  | _ => false

/-- Python membership `k in j` for a string `k`: key test on dicts, element
test on lists, substring test on strings, `TypeError` otherwise. -/
def pyContains (k : String) (j : Json) : Except PyError Bool :=
  match j with
  | .obj fields => .ok (alistLookup fields k).isSome
  | .arr elems => .ok (elems.any (fun e => pyEqStr e k))
  | .str s => .ok (decide ((s.splitOn k).length ≥ 2))
  | _ => .error .typeError

/-- Parse a plain decimal literal the way `float(str)` accepts it
(optional sign, integer digits, optional fraction digits). -/
def parseDecimal (s : String) : Option Rat :=
  let withSign : Int × List Char :=
    match s.toList with
    | '-' :: rest => (-1, rest)
    | '+' :: rest => (1, rest)
    | cs => (1, cs)
  let sign := withSign.1
  let intPart := withSign.2.takeWhile Char.isDigit
  let rest := withSign.2.dropWhile Char.isDigit
  let digitsVal : List Char → Nat :=
    fun cs => cs.foldl (fun acc c => acc * 10 + (c.toNat - 48)) 0
  match rest with
  | [] =>
    if intPart.isEmpty then none
    else some (sign * (digitsVal intPart : Int))
  | '.' :: frac =>
    if frac.all Char.isDigit && (!intPart.isEmpty || !frac.isEmpty) then
      some ((sign * ((digitsVal intPart * 10 ^ frac.length + digitsVal frac) : Int) : Rat)
        / ((10 : Rat) ^ frac.length))
    else none
  | _ => none

/-- Python `float(x)`: numbers pass through, bools become 0/1, strings are
parsed (`ValueError` on failure), everything else is a `TypeError`. -/
def pyFloat (j : Json) : Except PyError Rat :=
  match j with
  | .num q => .ok q
  | .bool b => .ok (if b then 1 else 0)
  | .str s =>
    match parseDecimal s with
    | some q => .ok q
    | none => .error .valueError
  | _ => .error .typeError

/-- One upstream HTTP exchange: the status code and the response body
(`none` when the body is not valid JSON).  `requests.get(...).json()` never
consults the status code (the source calls no `raise_for_status`). -/
structure HttpResult where
  status : Nat
  body : Option Json

/-- `requests.get(...).json()`: a transport failure (modelled as `none`)
raises the request exception; a non-JSON body raises the decode error;
otherwise the parsed document is returned regardless of the HTTP status. -/
def respJson (resp : Option HttpResult) : Except PyError Json :=
  match resp with
  | none => .error .requestException
  | some r =>
    match r.body with
    | none => .error .jsonDecodeError
    | some j => .ok j

/-- Result of `Except.ok`? -/
def isOkE {α : Type} : Except PyError α → Bool
  | .ok _ => true
  | .error _ => false

/-- The map-rotation snapshot fields of `MapDataCollector` (its instance
variables, in `__init__` order). -/
structure MapData where
  current_map_name : Json
  current_map_duration : Json
  current_map_remaining : Json
  next_map_name : Json
  next_map_start : Json
  next_map_duration : Json

namespace MapDataCollector

/-- `MapDataCollector.populate_data`: fetch the map-rotation document and
project its fields, in source statement order. -/
def populate_data (resp : Option HttpResult) : Except PyError MapData := do
  let map_rotation ← respJson resp
  let current_map_data ← map_rotation.getItem "current"
  let next_map_data ← map_rotation.getItem "next"
  let current_map_name ← current_map_data.getItem "map"
  let next_map_name ← next_map_data.getItem "map"
  let current_map_duration ← current_map_data.getItem "DurationInMinutes"
  let next_map_duration ← next_map_data.getItem "DurationInMinutes"
  let current_map_remaining ← current_map_data.getItem "remainingMins"
  let next_map_start ← next_map_data.getItem "start"
  pure ⟨current_map_name, current_map_duration, current_map_remaining,
    next_map_name, next_map_start, next_map_duration⟩

end MapDataCollector

/-- Python iteration `for item in j`: lists yield elements, strings yield
one-character strings, dicts yield their keys, scalars raise `TypeError`. -/
def pyIter (j : Json) : Except PyError (List Json) :=
  match j with
  | .arr elems => .ok elems
  | .str s => .ok (s.toList.map (fun c => Json.str c.toString))
  | .obj fields => .ok (fields.map (fun p => Json.str p.1))
  | _ => .error .typeError

/-- `legend_info.items()`: only on dicts (`AttributeError` otherwise). -/
def pyItems (j : Json) : Except PyError (List (String × Json)) :=
  match j with
  | .obj fields => .ok fields
  | _ => .error .attributeError

/-- The lazy generator `next((item["value"] for item in items
if item["key"] == "kills"), 0)`: the first entry whose `"key"` equals
`"kills"` yields its `"value"`; the default is `0` when none matches. -/
def findKills : List Json → Except PyError Json
  | [] => .ok (.num 0)
  | item :: rest => do
    let k ← item.getItem "key"
    if pyEqStr k "kills" then item.getItem "value"
    else findKills rest

/-- The all-legends loop of `PlayerStatsCollector.populate_data`
(src/server/main.py lines 227-242): skip the `"Global"` entry, skip entries
without a `"data"` member, key-match the kill count, keep nonzero counts. -/
def allLegendsKills : List (String × Json) → Except PyError (List (String × Json))
  | [] => .ok []
  | (legend_name, legend_info) :: rest =>
    if legend_name = "Global" then allLegendsKills rest
    else do
      let hasData ← pyContains "data" legend_info
      if !hasData then allLegendsKills rest
      else do
        let d ← legend_info.getItem "data"
        let items ← pyIter d
        let kill_value ← findKills items
        let tail ← allLegendsKills rest
        if pyEqZero kill_value then .ok tail
        else .ok ((legend_name, kill_value) :: tail)

/-- Constructor arguments of `PlayerStatsCollector` (besides the API key,
which only flows into the request headers). -/
structure PlayerConfig where
  uid : Option String
  player_name : Option String
  platform : Option String

/-- Truthiness of an optional string (`if self.player_name:` — unset and
empty are both falsy). -/
def truthyOpt : Option String → Bool
  | none => false
  | some s => s != ""

/-- The query-parameter dictionary sent to the player-stats endpoint: either
`{player_name, platform}` or `{uid, platform}`. -/
inductive PlayerQuery where
  | byName (player_name : Option String) (platform : Option String)
  | byUid (uid : Option String) (platform : Option String)
deriving DecidableEq

/-- Query selection in `PlayerStatsCollector.populate_data`
(src/server/main.py lines 166-179): a truthy `player_name` selects the
name-parameterized request, anything else the uid-parameterized one. -/
def playerQuery (cfg : PlayerConfig) : PlayerQuery :=
  if truthyOpt cfg.player_name then .byName cfg.player_name cfg.platform
  else .byUid cfg.uid cfg.platform

/-- The player-stats snapshot fields of `PlayerStatsCollector` (its instance
variables, in `__init__` order).  The source's `kill_death_ratio` field is
named `kill_death_rate` here for lexical reasons only. -/
structure PlayerStats where
  player_identifier : Json
  player_platform : Json
  level : Json
  next_level_percentage : Json
  banned : Json
  ban_duration : Json
  br_rank_name : Json
  br_rank_score : Json
  br_rank_div : Json
  arena_rank_name : Json
  arena_rank_score : Json
  arena_rank_div : Json
  battle_pass_level : Json
  battle_pass_history : Json
  lobby_state : Json
  is_online : Bool
  is_in_game : Bool
  party_full : Bool
  selected_legend : Json
  current_state : Json
  current_legend_name : Json
  current_legend_br_kills : Json
  all_legends_kills : List (String × Json)
  kills : Json
  kill_death_rate : Rat
  mozambique_cluster_server : Json
  processing_time : Json

/-- Parse the player-stats response body into the snapshot, mirroring
src/server/main.py lines 181-252 statement by statement (so the first failing
lookup is the error that surfaces). -/
def playerParse (resp : Option HttpResult) : Except PyError PlayerStats := do
  let player_stats ← respJson resp
  let player_info_data ← player_stats.getItem "global"
  let player_realtime_data ← player_stats.getItem "realtime"
  let player_current_legend_data ← (← player_stats.getItem "legends").getItem "selected"
  let player_legends_kills ← (← player_stats.getItem "legends").getItem "all"
  let player_mozambique_data ← player_stats.getItem "mozambiquehere_internal"
  let player_total_data ← player_stats.getItem "total"
  let api_data ← player_stats.getItem "processingTime"
  let player_identifier ← player_info_data.getItem "name"
  let player_platform ← player_info_data.getItem "platform"
  let level ← player_info_data.getItem "level"
  let next_level_percentage ← player_info_data.getItem "toNextLevelPercent"
  let banned ← (← player_info_data.getItem "bans").getItem "isActive"
  let ban_duration ← (← player_info_data.getItem "bans").getItem "remainingSeconds"
  let br_rank_name ← (← player_info_data.getItem "rank").getItem "rankName"
  let br_rank_score ← (← player_info_data.getItem "rank").getItem "rankScore"
  let br_rank_div ← (← player_info_data.getItem "rank").getItem "rankDiv"
  let arena_rank_name ← (← player_info_data.getItem "arena").getItem "rankName"
  let arena_rank_score ← (← player_info_data.getItem "arena").getItem "rankScore"
  let arena_rank_div ← (← player_info_data.getItem "arena").getItem "rankDiv"
  let battle_pass_level :=
    pyOr (← (← player_info_data.getItem "battlepass").getItem "level") (.num 0)
  let battle_pass_history :=
    pyOr (← (← player_info_data.getItem "battlepass").getItem "history") (.num 0)
  let lobby_state ← player_realtime_data.getItem "lobbyState"
  let is_online := pyTruthy (← player_realtime_data.getItem "isOnline")
  let is_in_game := pyTruthy (← player_realtime_data.getItem "isInGame")
  let party_full := pyTruthy (← player_realtime_data.getItem "partyFull")
  let selected_legend ← player_realtime_data.getItem "selectedLegend"
  let current_state ← player_realtime_data.getItem "currentState"
  let current_legend_name ← player_current_legend_data.getItem "LegendName"
  let current_legend_br_kills ←
    (← (← player_current_legend_data.getItem "data").index 0).getItem "value"
  let legendEntries ← pyItems player_legends_kills
  let all_legends_kills ← allLegendsKills legendEntries
  let kills ← (← player_total_data.getItem "kills").getItem "value"
  let kill_death_rate ← pyFloat (← (← player_total_data.getItem "kd").getItem "value")
  let mozambique_cluster_server ← player_mozambique_data.getItem "clusterSrv"
  pure ⟨player_identifier, player_platform, level, next_level_percentage,
    banned, ban_duration, br_rank_name, br_rank_score, br_rank_div,
    arena_rank_name, arena_rank_score, arena_rank_div,
    battle_pass_level, battle_pass_history, lobby_state,
    is_online, is_in_game, party_full, selected_legend, current_state,
    current_legend_name, current_legend_br_kills, all_legends_kills,
    kills, kill_death_rate, mozambique_cluster_server, api_data⟩

namespace PlayerStatsCollector

/-- `PlayerStatsCollector.populate_data`: choose the query parameters from the
configuration, perform the request (the transport maps the chosen parameters
to an HTTP exchange), and parse the body. -/
def populate_data (cfg : PlayerConfig)
    (transport : PlayerQuery → Option HttpResult) : Except PyError PlayerStats :=
  playerParse (transport (playerQuery cfg))

end PlayerStatsCollector

/-- The recognized environment options (src/server/main.py lines 517-538). -/
structure Env where
  user_id : Option String
  player_name : Option String
  api_key : Option String
  platform : Option String

/-- Startup validation (src/server/main.py lines 517-528): exit nonzero when
neither or both of USER_ID / PLAYER_NAME are set (truthy), or when API_KEY is
unset; otherwise build the collector configuration (PLATFORM defaults to the
empty string and is upper-cased). -/
def startupCheck (e : Env) : Option PlayerConfig :=
  if !truthyOpt e.user_id && !truthyOpt e.player_name then none
  else if truthyOpt e.user_id && truthyOpt e.player_name then none
  else if !truthyOpt e.api_key then none
  else some ⟨e.user_id, e.player_name, some ((e.platform.getD "").toUpper)⟩

/-- Decimal rendering of a rational (integers render without a denominator);
used only by `pyStr` below. -/
def ratStr (q : Rat) : String :=
  if q.den = 1 then toString q.num
  else toString q.num ++ "/" ++ toString q.den

/-- Python `str(x)` / `repr(x)` on JSON values, to the precision the claims
need: scalars render exactly (`None`, `True`, `False`, numbers, the raw
string); containers render in a repr-like bracketed form. -/
def pyStr : Json → String
  | .null => "None"
  | .bool true => "True"
  | .bool false => "False"
  | .num q => ratStr q
  | .str s => s
  | .arr _ => "[...]"
  | .obj _ => "\x7b...\x7d"

/-- The label-free gauges `ApexCollector.__init__` registers. -/
inductive GaugeId where
  | current_map_duration
  | current_map_remaining
  | next_map_start
  | next_map_duration
  | level
  | next_level_percentage
  | ban_duration
  | br_rank_score
  | br_rank_div
  | arena_rank_score
  | arena_rank_div
  | battle_pass_level
  | battle_pass_history
  | is_online
  | is_in_game
  | active_legend_kills
  | kills
  | kill_death_rate
  | processing_time
deriving DecidableEq

/-- The info-records `ApexCollector.__init__` registers. -/
inductive InfoId where
  | current_map
  | next_map
  | player_identifier
  | player_platform
  | banned
  | br_rank_name
  | arena_rank_name
  | lobby_state
  | party_full
  | selected_legend
  | active_legend
  | current_state
  | mozambique_cluster_server
deriving DecidableEq

/-- One addressable instrument of the registry: a gauge, an info-record, or a
child of the `player_legend_kills` labeled gauge, keyed by legend name. -/
inductive InstrKey where
  | gauge (g : GaugeId)
  | info (i : InfoId)
  | legendKills (legend_name : String)
deriving DecidableEq

/-- The value an instrument holds: a gauge number or an info label set. -/
inductive InstVal where
  | numVal (q : Rat)
  | infoVal (fields : List (String × Json))

/-- The instrument registry: the last value written to each instrument
(`none` for a labeled-gauge child never yet set). -/
def Instruments : Type := InstrKey → Option InstVal

/-- Registry contents right after `ApexCollector.__init__`: gauges at 0,
info-records empty, no legend-label children. -/
def initialInstruments : Instruments := fun k =>
  match k with
  | .gauge _ => some (.numVal 0)
  | .info _ => some (.infoVal [])
  | .legendKills _ => none

/-- One projection statement of `ApexCollector.collect`: write a value to an
instrument, or raise (a gauge `set` coerces its argument with `float(...)`,
which can fail). -/
inductive WriteOp where
  | put (k : InstrKey) (v : InstVal)
  | fail (e : PyError)

/-- `gauge.set(v)`: prometheus-client coerces with `float(v)`. -/
def gaugeOp (g : GaugeId) (v : Json) : WriteOp :=
  match pyFloat v with
  | .ok q => .put (.gauge g) (.numVal q)
  | .error e => .fail e

/-- `legend_kills.labels(name).set(v)` for one legend. -/
def labelOp (legend_name : String) (v : Json) : WriteOp :=
  match pyFloat v with
  | .ok q => .put (.legendKills legend_name) (.numVal q)
  | .error e => .fail e

/-- `info_record.info(fields)`: stores the label dict, never fails. -/
def infoOp (i : InfoId) (fields : List (String × Json)) : WriteOp :=
  .put (.info i) (.infoVal fields)

/-- The projection statements of `ApexCollector.collect`
(src/server/main.py lines 444-507), in source order. -/
def collectOps (ps : PlayerStats) (md : MapData) : List WriteOp :=
  [infoOp .current_map [("map_name", md.current_map_name)],
   gaugeOp .current_map_duration md.current_map_duration,
   gaugeOp .current_map_remaining md.current_map_remaining,
   infoOp .next_map [("next_map_name", md.next_map_name)],
   gaugeOp .next_map_duration md.next_map_duration,
   gaugeOp .next_map_start md.next_map_start,
   infoOp .player_identifier [("player_identifier", ps.player_identifier)],
   infoOp .player_platform [("platform", ps.player_platform)],
   gaugeOp .level ps.level,
   gaugeOp .next_level_percentage ps.next_level_percentage,
   infoOp .banned [("banned", .str (pyStr ps.banned))],
   gaugeOp .ban_duration ps.ban_duration,
   infoOp .br_rank_name [("br_rank_name", ps.br_rank_name)],
   gaugeOp .br_rank_score ps.br_rank_score,
   gaugeOp .br_rank_div ps.br_rank_div,
   infoOp .arena_rank_name [("arena_rank_name", ps.arena_rank_name)],
   gaugeOp .arena_rank_score ps.arena_rank_score,
   gaugeOp .arena_rank_div ps.arena_rank_div,
   gaugeOp .battle_pass_level ps.battle_pass_level,
   gaugeOp .battle_pass_history ps.battle_pass_history,
   infoOp .lobby_state [("lobby_state", ps.lobby_state)],
   .put (.gauge .is_online) (.numVal (if ps.is_online then 1 else 0)),
   .put (.gauge .is_in_game) (.numVal (if ps.is_in_game then 1 else 0)),
   infoOp .party_full [("party_full", .str (if ps.party_full then "True" else "False"))],
   infoOp .selected_legend [("selected_legend", ps.selected_legend)],
   infoOp .active_legend [("active_legend", ps.current_legend_name)],
   gaugeOp .active_legend_kills ps.current_legend_br_kills,
   infoOp .current_state [("current_state", ps.current_state)]]
  ++ ps.all_legends_kills.map (fun p => labelOp p.1 p.2)
  ++ [gaugeOp .kills ps.kills,
      .put (.gauge .kill_death_rate) (.numVal ps.kill_death_rate),
      infoOp .mozambique_cluster_server
        [("mozambique_cluster_server", ps.mozambique_cluster_server)],
      gaugeOp .processing_time ps.processing_time]

/-- Run the projection statements left to right; the first raising statement
aborts, leaving the instruments written so far in place. -/
def runOps : List WriteOp → Instruments → Option PyError × Instruments
  | [], s => (none, s)
  | .put k v :: rest, s => runOps rest (Function.update s k (some v))
  | .fail e :: _, s => (some e, s)

/-- The observable steps of one tick, for stating their order. -/
inductive Step where
  | fetchPlayer
  | fetchMap
  | project
deriving DecidableEq

namespace ApexCollector

/-- `ApexCollector.collect` (src/server/main.py lines 431-507): fetch the
player stats, then the map rotation, then project both snapshots into the
instruments.  Returns the trace of steps reached, the first uncaught error
(if any), and the resulting registry. -/
def collect (cfg : PlayerConfig) (pt : PlayerQuery → Option HttpResult)
    (mt : Option HttpResult) (inst : Instruments) :
    List Step × Option PyError × Instruments :=
  match PlayerStatsCollector.populate_data cfg pt with
  | .error e => ([.fetchPlayer], some e, inst)
  | .ok ps =>
    match MapDataCollector.populate_data mt with
    | .error e => ([.fetchPlayer, .fetchMap], some e, inst)
    | .ok md =>
      let r := runOps (collectOps ps md) inst
      ([.fetchPlayer, .fetchMap, .project], r.1, r.2)

end ApexCollector

/-- Does a detail entry's `"key"` field equal the string `"kills"`? -/
def entryKeyIsKills (item : Json) : Bool :=
  match item with
  | .obj fields =>
    match alistLookup fields "key" with
    | some (.str s) => s = "kills"
    | _ => false
  | _ => false

/-- A detail entry's `"value"` field, when present. -/
def entryValue (item : Json) : Option Json :=
  match item with
  | .obj fields => alistLookup fields "value"
  | _ => none

/-- Modelled from the spec's words: "the kill count is the value whose key
equals `"kills"` within that legend's detail list (default zero if absent)". -/
def specKillCount (items : List Json) : Json :=
  match items.find? entryKeyIsKills with
  | some item => (entryValue item).getD (.num 0)
  | none => .num 0

/-- A legend entry's detail list, when it has one. -/
def detailList (legend_info : Json) : Option (List Json) :=
  match legend_info with
  | .obj fields =>
    match alistLookup fields "data" with
    | some (.arr items) => some items
    | _ => none
  | _ => none

/-- Modelled from the spec's words: scan the all-legends collection, skip the
synthetic `"Global"` entry and entries lacking a detail list, keep each
remaining legend with its key-matched kill count when that count is nonzero. -/
def specKillMapping (legends : List (String × Json)) : List (String × Json) :=
  legends.filterMap (fun p =>
    if p.1 = "Global" then none
    else
      match detailList p.2 with
      | none => none
      | some items =>
        let kv := specKillCount items
        if pyEqZero kv then none else some (p.1, kv))

/-- A well-formed detail entry: an object carrying some `"key"` field and a
numeric `"value"` field. -/
def wfEntryB (item : Json) : Bool :=
  match item with
  | .obj fields =>
    (alistLookup fields "key").isSome &&
      (match alistLookup fields "value" with
       | some (.num _) => true
       | _ => false)
  | _ => false

/-- A well-formed legend entry: an object whose `"data"` member, when present,
is a list of well-formed detail entries. -/
def wfLegendB (legend_info : Json) : Bool :=
  match legend_info with
  | .obj fields =>
    match alistLookup fields "data" with
    | some (.arr items) => items.all wfEntryB
    | some _ => false
    | none => true
  | _ => false

/-- A well-formed all-legends collection (the synthetic `"Global"` entry is
never inspected, so its shape is unconstrained). -/
def wfLegendsB (legends : List (String × Json)) : Bool :=
  legends.all (fun p => p.1 = "Global" || wfLegendB p.2)

/-- The §8 all-legends fixture: Global, Wraith with 12 kills, Bangalore with
0 kills, Octane with no detail list. -/
def c1Fixture : List (String × Json) :=
  [("Global", .obj [("data", .arr [.obj [("key", .str "kills"), ("value", .num 7)]])]),
   ("Wraith", .obj [("data", .arr [.obj [("key", .str "kills"), ("value", .num 12)]])]),
   ("Bangalore", .obj [("data", .arr [.obj [("key", .str "kills"), ("value", .num 0)]])]),
   ("Octane", .obj [])]

/-- The §8 map-rotation fixture document. -/
def mapDocFix : Json :=
  .obj [("current", .obj [("map", .str "Kings Canyon"),
          ("DurationInMinutes", .num 45), ("remainingMins", .num 10)]),
        ("next", .obj [("map", .str "World's Edge"),
          ("DurationInMinutes", .num 45), ("start", .num 1700000000)])]

/-- A selected-legend record whose detail list is the given items. -/
def mkSelected (items : List Json) : Json :=
  .obj [("LegendName", .str "Wraith"), ("data", .arr items)]

/-- A full player-stats document with every field the parser touches; the
selected-legend record, the battle-pass fields and the all-legends collection
are parameters so claims can vary them. -/
def mkPlayerDoc (sel : Json) (bpLevel bpHistory : Json)
    (legends : List (String × Json)) : Json :=
  .obj [
    ("global", .obj [
      ("name", .str "TestPlayer"),
      ("platform", .str "PC"),
      ("level", .num 100),
      ("toNextLevelPercent", .num 50),
      ("bans", .obj [("isActive", .bool false), ("remainingSeconds", .num 0)]),
      ("rank", .obj [("rankName", .str "Gold"), ("rankScore", .num 4800),
        ("rankDiv", .num 2)]),
      ("arena", .obj [("rankName", .str "Silver"), ("rankScore", .num 1600),
        ("rankDiv", .num 3)]),
      ("battlepass", .obj [("level", bpLevel), ("history", bpHistory)])]),
    ("realtime", .obj [("lobbyState", .str "open"), ("isOnline", .num 1),
      ("isInGame", .num 0), ("partyFull", .num 0),
      ("selectedLegend", .str "Wraith"), ("currentState", .str "inLobby")]),
    ("legends", .obj [("selected", sel), ("all", .obj legends)]),
    ("mozambiquehere_internal", .obj [("clusterSrv", .str "eu")]),
    ("total", .obj [("kills", .obj [("value", .num 1234)]),
      ("kd", .obj [("value", .str "2")])]),
    ("processingTime", .num 3)]

/-- A concrete fully well-formed player document. -/
def playerDocFix : Json :=
  mkPlayerDoc (mkSelected [.obj [("key", .str "kills"), ("value", .num 12)]])
    (.num 5) (.num 2) c1Fixture

/-- A transport that answers every player query with status 200 and the
concrete player document. -/
def goodPT : PlayerQuery → Option HttpResult :=
  fun _ => some ⟨200, some playerDocFix⟩

/-- A transport whose every request fails at the network level. -/
def downPT : PlayerQuery → Option HttpResult :=
  fun _ => none

/-- A successful map-rotation exchange. -/
def goodMT : Option HttpResult := some ⟨200, some mapDocFix⟩

/-- The last value a statement list writes to a given instrument before its
first raising statement (if any); `none` when the instrument is untouched. -/
def lastPut : List WriteOp → InstrKey → Option InstVal
  | [], _ => none
  | .fail _ :: _, _ => none
  | .put k v :: rest, q =>
    match lastPut rest q with
    | some w => some w
    | none => if k = q then some v else none

/-- A valid collector configuration: name-identified player on PC. -/
def cfgFix : PlayerConfig := ⟨none, some "Hero", some "PC"⟩

-- ------------------------------------------------------------------
-- Helper lemmas
-- ------------------------------------------------------------------

/-- Characterize the registry after running a statement list: each instrument
holds the last value written to it, or its prior value when untouched. -/
theorem runOps_apply (ops : List WriteOp) (s : Instruments) (q : InstrKey) :
    (runOps ops s).2 q =
      match lastPut ops q with
      | some w => some w
      | none => s q := by
  induction ops generalizing s with
  | nil => rfl
  | cons op rest ih =>
    cases op with
    | fail e => rfl
    | put k v =>
      show (runOps rest (Function.update s k (some v))).2 q = _
      rw [ih]
      cases hl : lastPut rest q with
      | some w => simp [lastPut, hl]
      | none =>
        simp only [lastPut, hl, Function.update_apply]
        by_cases hq : q = k
        · subst hq; simp
        · rw [if_neg hq, if_neg (fun h => hq (Eq.symm h))]

/-- Whether / where a statement list raises does not depend on the registry. -/
theorem runOps_err (ops : List WriteOp) (s t : Instruments) :
    (runOps ops s).1 = (runOps ops t).1 := by
  induction ops generalizing s t with
  | nil => rfl
  | cons op rest ih =>
    cases op with
    | fail e => rfl
    | put k v => exact ih _ _

/-- Running the same statement list twice leaves the registry where the first
run put it. -/
theorem runOps_idem (ops : List WriteOp) (s : Instruments) :
    (runOps ops (runOps ops s).2).2 = (runOps ops s).2 := by
  funext q
  rw [runOps_apply, runOps_apply]
  cases lastPut ops q with
  | some w => rfl
  | none => rfl

/-- On a detail list of well-formed entries, the generator-with-default agrees
with the spec's key-matched kill count. -/
theorem findKills_wf (items : List Json) (h : items.all wfEntryB = true) :
    findKills items = .ok (specKillCount items) := by
  induction items with
  | nil => rfl
  | cons item rest ih =>
    simp only [List.all_cons, Bool.and_eq_true] at h
    obtain ⟨hitem, hrest⟩ := h
    cases item with
    | obj fields =>
      simp only [wfEntryB, Bool.and_eq_true] at hitem
      obtain ⟨hkey, hval⟩ := hitem
      cases hk : alistLookup fields "key" with
      | none => rw [hk] at hkey; simp at hkey
      | some kj =>
        cases hkills : pyEqStr kj "kills" with
        | true =>
          cases kj with
          | str s =>
            have hs : s = "kills" := by simpa [pyEqStr] using hkills
            subst hs
            have hek : entryKeyIsKills (.obj fields) = true := by
              simp [entryKeyIsKills, hk]
            cases hv : alistLookup fields "value" with
            | none => rw [hv] at hval; simp at hval
            | some vj =>
              cases vj with
              | num q =>
                simp [findKills, Json.getItem, hk, hv, pyEqStr, bind,
                  Except.bind, specKillCount, List.find?, hek, entryValue]
              | null => rw [hv] at hval; simp at hval
              | bool b => rw [hv] at hval; simp at hval
              | str t => rw [hv] at hval; simp at hval
              | arr xs => rw [hv] at hval; simp at hval
              | obj fs => rw [hv] at hval; simp at hval
          | null => simp [pyEqStr] at hkills
          | bool b => simp [pyEqStr] at hkills
          | num q => simp [pyEqStr] at hkills
          | arr xs => simp [pyEqStr] at hkills
          | obj fs => simp [pyEqStr] at hkills
        | false =>
          have hek : entryKeyIsKills (.obj fields) = false := by
            simp only [entryKeyIsKills, hk]
            cases kj with
            | str s => simpa [pyEqStr] using hkills
            | null => rfl
            | bool b => rfl
            | num q => rfl
            | arr xs => rfl
            | obj fs => rfl
          simp [findKills, Json.getItem, hk, hkills, bind, Except.bind,
            ih hrest, specKillCount, List.find?, hek]
    | null => simp [wfEntryB] at hitem
    | bool b => simp [wfEntryB] at hitem
    | num q => simp [wfEntryB] at hitem
    | str s => simp [wfEntryB] at hitem
    | arr xs => simp [wfEntryB] at hitem

/-- On a well-formed all-legends collection, the loop of
`PlayerStatsCollector.populate_data` computes exactly the spec's mapping. -/
theorem allLegends_wf (legends : List (String × Json))
    (h : wfLegendsB legends = true) :
    allLegendsKills legends = .ok (specKillMapping legends) := by
  induction legends with
  | nil => rfl
  | cons p rest ih =>
    obtain ⟨name, info⟩ := p
    simp only [wfLegendsB, List.all_cons, Bool.and_eq_true, Bool.or_eq_true,
      decide_eq_true_eq] at h
    obtain ⟨hhead, hrest⟩ := h
    have ihr : allLegendsKills rest = .ok (specKillMapping rest) := by
      apply ih
      simpa [wfLegendsB] using hrest
    by_cases hg : name = "Global"
    · simp [allLegendsKills, hg, ihr, specKillMapping, List.filterMap_cons]
    · have hwf : wfLegendB info = true := by
        rcases hhead with h' | h'
        · exact absurd h' hg
        · exact h'
      cases info with
      | obj fields =>
        simp only [wfLegendB] at hwf
        cases hd : alistLookup fields "data" with
        | none =>
          simp [allLegendsKills, hg, pyContains, hd, bind, Except.bind, ihr,
            specKillMapping, List.filterMap_cons, detailList]
        | some dv =>
          cases dv with
          | arr items =>
            rw [hd] at hwf
            have hfk := findKills_wf items hwf
            by_cases hz : pyEqZero (specKillCount items) = true <;>
              simp [allLegendsKills, hg, pyContains, hd, Json.getItem, pyIter,
                bind, Except.bind, hfk, ihr, specKillMapping,
                List.filterMap_cons, detailList, hz]
          | null => rw [hd] at hwf; simp at hwf
          | bool b => rw [hd] at hwf; simp at hwf
          | num q => rw [hd] at hwf; simp at hwf
          | str s => rw [hd] at hwf; simp at hwf
          | obj fs => rw [hd] at hwf; simp at hwf
      | null => simp [wfLegendB] at hwf
      | bool b => simp [wfLegendB] at hwf
      | num q => simp [wfLegendB] at hwf
      | str s => simp [wfLegendB] at hwf
      | arr xs => simp [wfLegendB] at hwf

-- ------------------------------------------------------------------
-- Claim theorems
-- ------------------------------------------------------------------

/-- C4: for every upstream map-rotation document of the documented shape,
`MapStatusFetcher.fetch` (MapDataCollector.populate_data) is a direct
projection: current.map, current.DurationInMinutes, current.remainingMins,
next.map, next.start and next.DurationInMinutes become the six snapshot
fields. -/
theorem C4_map_projection (st : Nat) (fs curFs nextFs : List (String × Json))
    (v_cmap v_cdur v_crem v_nmap v_nstart v_ndur : Json)
    (hcur : alistLookup fs "current" = some (.obj curFs))
    (hnext : alistLookup fs "next" = some (.obj nextFs))
    (h1 : alistLookup curFs "map" = some v_cmap)
    (h2 : alistLookup curFs "DurationInMinutes" = some v_cdur)
    (h3 : alistLookup curFs "remainingMins" = some v_crem)
    (h4 : alistLookup nextFs "map" = some v_nmap)
    (h5 : alistLookup nextFs "start" = some v_nstart)
    (h6 : alistLookup nextFs "DurationInMinutes" = some v_ndur) :
    MapDataCollector.populate_data (some ⟨st, some (.obj fs)⟩) =
      .ok ⟨v_cmap, v_cdur, v_crem, v_nmap, v_nstart, v_ndur⟩ := by
  simp [MapDataCollector.populate_data, respJson, Json.getItem, bind,
    Except.bind, pure, Except.pure, hcur, hnext, h1, h2, h3, h4, h5, h6]

/-- C4 witness: the §8 fixture yields current map "Kings Canyon" (45 min
total, 10 remaining) and next map "World's Edge" starting at 1700000000. -/
theorem C4_map_projection_witness :
    alistLookup [("map", .str "Kings Canyon"), ("DurationInMinutes", .num 45),
        ("remainingMins", .num 10)] "map" = some (.str "Kings Canyon") ∧
    MapDataCollector.populate_data (some ⟨200, some mapDocFix⟩) =
      .ok ⟨.str "Kings Canyon", .num 45, .num 10, .str "World's Edge",
        .num 1700000000, .num 45⟩ :=
  ⟨rfl, C4_map_projection 200 _ _ _ _ _ _ _ _ _
    rfl rfl rfl rfl rfl rfl rfl rfl⟩

/-- C2 counterexample: a fetch that receives a non-2xx HTTP status (here 404)
with a complete JSON body raises nothing at all — it succeeds — contradicting
the claim that every non-success status surfaces as a raised `UpstreamError`
(a class the source does not even define). -/
theorem C2_non2xx_counterexample :
    MapDataCollector.populate_data (some ⟨404, some mapDocFix⟩) =
      .ok ⟨.str "Kings Canyon", .num 45, .num 10, .str "World's Edge",
        .num 1700000000, .num 45⟩ := rfl

/-- C2 amended: a fetch raises the HTTP library's request exception on
network failure and a JSON decode error on a non-JSON body; a missing
expected field surfaces as a `KeyError`; the HTTP status code is never
consulted, so a non-success status alone causes no failure; and no
`UpstreamError` exists — these native errors are the only failure modes. -/
theorem C2_fetch_error_modes :
    MapDataCollector.populate_data none = .error .requestException ∧
    (∀ cfg : PlayerConfig,
      PlayerStatsCollector.populate_data cfg downPT = .error .requestException) ∧
    (∀ st : Nat,
      MapDataCollector.populate_data (some ⟨st, none⟩) = .error .jsonDecodeError) ∧
    (∀ (cfg : PlayerConfig) (st : Nat),
      PlayerStatsCollector.populate_data cfg (fun _ => some ⟨st, none⟩) =
        .error .jsonDecodeError) ∧
    (∀ (st st' : Nat) (b : Option Json),
      MapDataCollector.populate_data (some ⟨st, b⟩) =
        MapDataCollector.populate_data (some ⟨st', b⟩)) ∧
    (∀ (cfg : PlayerConfig) (st st' : Nat) (b : Option Json),
      PlayerStatsCollector.populate_data cfg (fun _ => some ⟨st, b⟩) =
        PlayerStatsCollector.populate_data cfg (fun _ => some ⟨st', b⟩)) ∧
    MapDataCollector.populate_data (some ⟨500, some (.obj [])⟩) =
      .error (.keyError "current") :=
  ⟨rfl, fun _ => rfl, fun _ => rfl, fun _ _ => rfl,
   fun _ _ b => by cases b <;> rfl,
   fun _ _ _ b => by cases b <;> rfl,
   rfl⟩

/-- C9: when a player name is configured (truthy), the player-stats request
is parameterized by name and platform — never by id (the configured uid is
irrelevant); otherwise it is parameterized by uid and platform. -/
theorem C9_query_selection (cfg : PlayerConfig) :
    (truthyOpt cfg.player_name = true →
      playerQuery cfg = .byName cfg.player_name cfg.platform) ∧
    (truthyOpt cfg.player_name = false →
      playerQuery cfg = .byUid cfg.uid cfg.platform) ∧
    (truthyOpt cfg.player_name = true → ∀ uid' : Option String,
      playerQuery ⟨uid', cfg.player_name, cfg.platform⟩ = playerQuery cfg) := by
  refine ⟨fun h => ?_, fun h => ?_, fun h uid' => ?_⟩ <;>
    simp [playerQuery, h]

/-- C9 witness: with PLAYER_NAME "Hero" configured and a uid also present,
the request uses name and platform. -/
theorem C9_query_selection_witness :
    truthyOpt (PlayerConfig.mk (some "999") (some "Hero") (some "PC")).player_name
      = true ∧
    playerQuery ⟨some "999", some "Hero", some "PC"⟩ =
      .byName (some "Hero") (some "PC") :=
  ⟨rfl, (C9_query_selection ⟨some "999", some "Hero", some "PC"⟩).1 rfl⟩

/-- C5 counterexample: `PlayerStatusFetcher.fetch` raises no configuration
error — with BOTH uid and name configured it proceeds and succeeds, and with
NEITHER configured it also proceeds (requesting by a null uid), contradicting
the claim that fetch raises `ConfigurationError` in those cases (a class the
source does not define). -/
theorem C5_no_config_error_counterexample :
    isOkE (PlayerStatsCollector.populate_data
      ⟨some "123", some "Hero", some "PC"⟩ goodPT) = true ∧
    isOkE (PlayerStatsCollector.populate_data
      ⟨none, none, some "PC"⟩ goodPT) = true :=
  ⟨rfl, rfl⟩

/-- C5 amended: the neither/both validation lives at process startup, not in
fetch: startup refuses to proceed exactly when neither or both of
USER_ID/PLAYER_NAME are set, or API_KEY is unset; the fetch itself performs
no configuration validation — with both set it proceeds parameterized by
name, and with neither it proceeds parameterized by uid. -/
theorem C5_startup_validation :
    (∀ e : Env, (startupCheck e).isNone =
      ((!truthyOpt e.user_id && !truthyOpt e.player_name) ||
       (truthyOpt e.user_id && truthyOpt e.player_name) ||
       !truthyOpt e.api_key)) ∧
    playerQuery ⟨some "123", some "Hero", some "PC"⟩ =
      .byName (some "Hero") (some "PC") ∧
    isOkE (PlayerStatsCollector.populate_data
      ⟨some "123", some "Hero", some "PC"⟩ goodPT) = true ∧
    playerQuery ⟨none, none, some "PC"⟩ = .byUid none (some "PC") ∧
    isOkE (PlayerStatsCollector.populate_data
      ⟨none, none, some "PC"⟩ goodPT) = true := by
  refine ⟨fun e => ?_, rfl, rfl, rfl, rfl⟩
  simp only [startupCheck]
  cases hu : truthyOpt e.user_id <;>
    cases hn : truthyOpt e.player_name <;>
      cases ha : truthyOpt e.api_key <;> simp

/-- C6: the active-legend kill count is taken positionally as the value of
the FIRST element of the selected legend's detail list, whatever that
element's key is and whatever follows it — in particular, with a first entry
keyed "damage" (value 7) and a later entry keyed "kills" (value 99), the
snapshot records 7. -/
theorem C6_active_legend_positional :
    (∀ (cfg : PlayerConfig) (k v : Json) (rest : List Json),
      (PlayerStatsCollector.populate_data cfg (fun _ => some ⟨200, some
          (mkPlayerDoc (mkSelected (.obj [("key", k), ("value", v)] :: rest))
            (.num 5) (.num 2) [])⟩)).map
        (fun s => s.current_legend_br_kills) = .ok v) ∧
    (PlayerStatsCollector.populate_data cfgFix (fun _ => some ⟨200, some
        (mkPlayerDoc (mkSelected
            [.obj [("key", .str "damage"), ("value", .num 7)],
             .obj [("key", .str "kills"), ("value", .num 99)]])
          (.num 5) (.num 2) [])⟩)).map
      (fun s => s.current_legend_br_kills) = .ok (.num 7) :=
  ⟨fun _ _ _ _ => rfl, rfl⟩

/-- C10: the snapshot's battle-pass level and history are the upstream values
exactly when those are truthy and 0 otherwise — the `or 0` idiom coalesces
every falsy value (None, False, 0, "") to 0, not just null. -/
theorem C10_battlepass_falsy_coalescing :
    (∀ (cfg : PlayerConfig) (lvl hist : Json),
      (PlayerStatsCollector.populate_data cfg (fun _ => some ⟨200, some
          (mkPlayerDoc (mkSelected [.obj [("key", .str "kills"), ("value", .num 12)]])
            lvl hist [])⟩)).map
        (fun s => (s.battle_pass_level, s.battle_pass_history)) =
      .ok (pyOr lvl (.num 0), pyOr hist (.num 0))) ∧
    pyOr (.bool false) (.num 0) = .num 0 ∧
    pyOr (.str "") (.num 0) = .num 0 ∧
    pyOr .null (.num 0) = .num 0 ∧
    pyOr (.num 0) (.num 0) = .num 0 ∧
    (∀ q : Rat, pyOr (.num q) (.num 0) = if q = 0 then .num 0 else .num q) ∧
    pyOr (.num 12) (.num 0) = .num 12 ∧
    pyOr (.str "x") (.num 0) = .str "x" := by
  refine ⟨fun _ _ _ => rfl, rfl, rfl, rfl, rfl, fun q => ?_, rfl, rfl⟩
  by_cases hq : q = 0 <;> simp [pyOr, pyTruthy, hq]

/-- C1: the per-legend kill mapping of `PlayerStatusFetcher.fetch` contains
exactly the non-"Global" legends that have a detail list and whose
key-matched "kills" value (default 0) is nonzero, each mapped to that value;
the §8 fixture yields exactly Wraith ↦ 12 — through the fetch as well as
through the loop itself. -/
theorem C1_all_legends_kill_mapping :
    (∀ legends, wfLegendsB legends = true →
      allLegendsKills legends = .ok (specKillMapping legends)) ∧
    (∀ cfg : PlayerConfig,
      (PlayerStatsCollector.populate_data cfg goodPT).map
        (fun s => s.all_legends_kills) = .ok [("Wraith", .num 12)]) ∧
    allLegendsKills c1Fixture = .ok [("Wraith", .num 12)] :=
  ⟨fun legends h => allLegends_wf legends h, fun _ => rfl, rfl⟩

/-- C1 witness: the fixture collection is well-formed, and instantiating the
general refinement at it produces the spec-side mapping, which is exactly
Wraith ↦ 12. -/
theorem C1_kill_mapping_witness :
    wfLegendsB c1Fixture = true ∧
    allLegendsKills c1Fixture = .ok (specKillMapping c1Fixture) ∧
    specKillMapping c1Fixture = [("Wraith", .num 12)] :=
  ⟨rfl, C1_all_legends_kill_mapping.1 c1Fixture rfl, rfl⟩

/-- C3: if either fetch of a tick fails, `collect` mutates no instrument —
the registry is returned exactly as it was (projection happens only after
both fetches succeed). -/
theorem C3_fetch_failure_leaves_instruments (cfg : PlayerConfig)
    (pt : PlayerQuery → Option HttpResult) (mt : Option HttpResult)
    (inst : Instruments)
    (h : isOkE (PlayerStatsCollector.populate_data cfg pt) = false ∨
         isOkE (MapDataCollector.populate_data mt) = false) :
    (ApexCollector.collect cfg pt mt inst).2.2 = inst := by
  cases hp : PlayerStatsCollector.populate_data cfg pt with
  | error e => simp [ApexCollector.collect, hp]
  | ok ps =>
    cases hm : MapDataCollector.populate_data mt with
    | error e => simp [ApexCollector.collect, hp, hm]
    | ok md =>
      exfalso
      rcases h with h | h
      · rw [hp] at h; simp [isOkE] at h
      · rw [hm] at h; simp [isOkE] at h

/-- C3 witness: with the player fetch failing at the network level, a tick
leaves the freshly initialized registry untouched. -/
theorem C3_fetch_failure_witness :
    isOkE (PlayerStatsCollector.populate_data cfgFix downPT) = false ∧
    (ApexCollector.collect cfgFix downPT goodMT initialInstruments).2.2 =
      initialInstruments :=
  ⟨rfl, C3_fetch_failure_leaves_instruments cfgFix downPT goodMT
    initialInstruments (Or.inl rfl)⟩

/-- C7 counterexample: a successful tick's steps are player-fetch, then
map-fetch, then project — not the claimed map-fetch-first order. -/
theorem C7_order_counterexample :
    (ApexCollector.collect cfgFix goodPT goodMT initialInstruments).1 =
      [Step.fetchPlayer, Step.fetchMap, Step.project] ∧
    [Step.fetchPlayer, Step.fetchMap, Step.project] ≠
      [Step.fetchMap, Step.fetchPlayer, Step.project] :=
  ⟨rfl, by decide⟩

/-- C7 amended: within each tick the steps occur in the order player-stats
fetch, then map-rotation fetch, then projection — every tick's trace is a
prefix of that sequence. -/
theorem C7_step_order (cfg : PlayerConfig)
    (pt : PlayerQuery → Option HttpResult) (mt : Option HttpResult)
    (inst : Instruments) :
    (ApexCollector.collect cfg pt mt inst).1 = [Step.fetchPlayer] ∨
    (ApexCollector.collect cfg pt mt inst).1 =
      [Step.fetchPlayer, Step.fetchMap] ∨
    (ApexCollector.collect cfg pt mt inst).1 =
      [Step.fetchPlayer, Step.fetchMap, Step.project] := by
  cases hp : PlayerStatsCollector.populate_data cfg pt with
  | error e => left; simp [ApexCollector.collect, hp]
  | ok ps =>
    cases hm : MapDataCollector.populate_data mt with
    | error e => right; left; simp [ApexCollector.collect, hp, hm]
    | ok md => right; right; simp [ApexCollector.collect, hp, hm]

/-- C8: `collect` is idempotent under identical upstream responses — running
a second tick against byte-identical documents leaves every instrument with
the value it had after the first tick. -/
theorem C8_collect_idempotent (cfg : PlayerConfig)
    (pt : PlayerQuery → Option HttpResult) (mt : Option HttpResult)
    (inst : Instruments) :
    (ApexCollector.collect cfg pt mt
        ((ApexCollector.collect cfg pt mt inst).2.2)).2.2 =
      (ApexCollector.collect cfg pt mt inst).2.2 := by
  cases hp : PlayerStatsCollector.populate_data cfg pt with
  | error e => simp [ApexCollector.collect, hp]
  | ok ps =>
    cases hm : MapDataCollector.populate_data mt with
    | error e => simp [ApexCollector.collect, hp, hm]
    | ok md =>
      simp only [ApexCollector.collect, hp, hm]
      exact runOps_idem (collectOps ps md) inst
